import Mathlib

/-!
Shallow embedding of the aws-crypto-pipeline repository (three Python source
files: `src/lambda/src/lambda_etl.py`, `src/scripts/lambda_backfill.py`,
`src/scripts/manual_backfill.py`).

The job fetches Bitcoin market data from the CoinGecko API and writes
partitioned parquet rows to S3.  External effects (the HTTP responses, the
secrets-manager lookup, the S3 write outcome, and the wall clock) are passed
in explicitly as values; sleeps are recorded as a trace of durations.
Numeric market values are modelled as `Int` (no arithmetic is performed on
them, only presence/absence matters).
-/

namespace CryptoPipeline

/-- A calendar date (the components Python's `datetime` exposes as
`.year`, `.month`, `.day`). -/
structure Date where
  year : Nat
  month : Nat
  day : Nat
deriving DecidableEq, Repr

/-- One element of the JSON array returned by the CoinGecko
`/coins/markets` endpoint (the upstream contract: fields
`id, symbol, name, current_price, total_volume, market_cap, last_updated`).
A numeric field may be absent from the JSON object. -/
structure MarketsEntry where
  id : String
  symbol : String
  name : String
  current_price : Option Int
  total_volume : Option Int
  market_cap : Option Int
  last_updated : String
deriving DecidableEq, Repr

/-- Outcome of one `requests.get` against the `/coins/markets` endpoint:
either the request/`raise_for_status` raises, or a JSON array comes back. -/
inductive MarketsFetchOutcome where
  | httpError
  | ok (data : List MarketsEntry)
deriving DecidableEq, Repr

/-- The column names of the one-row pandas DataFrame `pd.DataFrame(data)`
builds from a markets-endpoint entry: the keys present in the JSON object.
An absent numeric field contributes no column. -/
def marketsEntryColumns (e : MarketsEntry) : List String :=
  ["id", "symbol", "name"]
  ++ (match e.current_price with | some _ => ["current_price"] | none => [])
  ++ (match e.total_volume with | some _ => ["total_volume"] | none => [])
  ++ (match e.market_cap with | some _ => ["market_cap"] | none => [])
  ++ ["last_updated"]

/-! ## lambda_etl.py -/

/-- `fetch_single_coin_market_data` (lambda_etl.py): on a request exception
re-raises (`Except.error`); on an empty array returns an empty DataFrame
(`ok []`); otherwise returns `pd.DataFrame(data)` with the upstream columns
unchanged.  The `api_key` only affects the request header, not the mapping. -/
def fetch_single_coin_market_data (outcome : MarketsFetchOutcome)
    (api_key : Option String) : Except String (List MarketsEntry) :=
  match outcome with
  | .httpError => .error "API request failed"
  | .ok data =>
    -- the function returns pd.DataFrame() when data is empty and
    -- pd.DataFrame(data) otherwise; both are just the list of entries here
    let _ := api_key
    .ok data

/-- Outcome of the Secrets Manager interaction seen by `lambda_handler`:
no secret name configured, a successful lookup+parse+extract, or any
exception inside the `try` block (network, missing `SecretString`,
malformed JSON, missing `COINGECKO_API_KEY` field). -/
inductive LambdaSecretOutcome where
  | noSecretConfigured
  | lookupOk (key : String)
  | lookupFails
deriving DecidableEq, Repr

/-- The `api_key` variable after the secret block in `lambda_handler`:
any failure is caught and the handler proceeds with `None`. -/
def lambdaResolveApiKey : LambdaSecretOutcome → Option String
  | .noSecretConfigured => none
  | .lookupOk k => some k
  | .lookupFails => none

/-- A recognized invocation event of `lambda_handler`.  The code reads only
`event["date"]`; the `historical_data` member recognized by the spec is
carried here so claims about it can be stated (the handler never reads it).
`date` is the already-parsed `YYYY-MM-DD` value. -/
structure LambdaEvent where
  date : Option Date
  historical_data : Option (Option Int × Option Int × Option Int)
deriving DecidableEq, Repr

/-- A row of the DataFrame the handler passes to `wr.s3.to_parquet`:
the upstream entry's columns plus `processing_timestamp` and the
partition columns `year`, `month`, `day` added by the handler. -/
structure LambdaRow where
  entry : MarketsEntry
  processing_timestamp : Nat
  year : Nat
  month : Nat
  day : Nat
deriving DecidableEq, Repr

/-- The column names of a row the handler hands to the writer. -/
def lambdaRowColumns (r : LambdaRow) : List String :=
  marketsEntryColumns r.entry ++ ["processing_timestamp", "year", "month", "day"]

/-- The external world of one `lambda_handler` invocation: environment
variables, the secrets outcome, the upstream response, the wall clock
(`datetime.utcnow()`), and the S3 write outcome (`paths` on success). -/
structure LambdaEnv where
  s3Bucket : String
  s3Prefix : String
  secret : LambdaSecretOutcome
  fetch : MarketsFetchOutcome
  now : Date
  nowTimestamp : Nat
  writeResult : Except String (List String)
deriving Repr

/-- The dictionary `lambda_handler` returns. -/
structure HandlerResult where
  statusCode : Nat
  body : String
deriving DecidableEq, Repr

/-- The handler's observable outcome: its return value and the list of
DataFrames (each a list of rows) passed to `wr.s3.to_parquet`. -/
structure HandlerOutput where
  result : HandlerResult
  writes : List (List LambdaRow)
deriving DecidableEq, Repr

/-- `lambda_handler` (lambda_etl.py).  The outer `try` turns any exception
into a 500 result.  Mode selection reads only `event["date"]`: with it the
partition date is the parsed event date, without it `datetime.utcnow()`.
The fetched DataFrame is written unchanged apart from the added
`processing_timestamp`/`year`/`month`/`day` columns; success reads
`result["paths"][0]` (an empty `paths` list would raise, hence 500). -/
def lambda_handler (env : LambdaEnv) (event : LambdaEvent) : HandlerOutput :=
  let api_key := lambdaResolveApiKey env.secret
  match fetch_single_coin_market_data env.fetch api_key with
  | .error e => ⟨⟨500, "An error occurred: " ++ e⟩, []⟩
  | .ok [] => ⟨⟨204, "No data returned from API."⟩, []⟩
  | .ok (d :: ds) =>
    let run_date := match event.date with
      | some dt => dt
      | none => env.now
    let rows := (d :: ds).map (fun e =>
      { entry := e
        processing_timestamp := env.nowTimestamp
        year := run_date.year
        month := run_date.month
        day := run_date.day : LambdaRow })
    match env.writeResult with
    | .error e => ⟨⟨500, "An error occurred: " ++ e⟩, [rows]⟩
    | .ok [] => ⟨⟨500, "An error occurred: list index out of range"⟩, [rows]⟩
    | .ok (p :: _) => ⟨⟨200, "Data successfully written to " ++ p⟩, [rows]⟩

/-! ## lambda_backfill.py -/

/-- The nested market fields extracted from a successful
`/coins/{id}/history` response: `market_data.current_price.usd`,
`market_data.total_volume.usd`, `market_data.market_cap.usd` (each `None`
when the nested field is missing) and the `last_updated` value
(`data.get("last_updated") or market.get("last_updated")`). -/
structure HistData where
  price_usd : Option Int
  volume_usd : Option Int
  market_cap_usd : Option Int
  last_updated : Option String
deriving DecidableEq, Repr

/-- What one attempt inside `fetch_historical_day` observes:
a 429 status, a `requests.RequestException` (from the request itself or
`raise_for_status`), any other exception, or a parsed success body. -/
inductive AttemptOutcome where
  | rateLimited
  | requestException
  | otherError
  | success (data : HistData)
deriving DecidableEq, Repr

/-- Whether an attempt outcome reaches the `return` statement. -/
def AttemptOutcome.isSuccess : AttemptOutcome → Bool
  | .success _ => true
  | _ => false

/-- The dict `fetch_historical_day` returns. -/
structure HistPayload where
  date : Date
  price_usd : Option Int
  volume_usd : Option Int
  market_cap_usd : Option Int
  last_updated : Option String
deriving DecidableEq, Repr

/-- The all-`None` payload returned after `MAX_RETRIES` attempts fail. -/
def failedPayload (d : Date) : HistPayload :=
  { date := d, price_usd := none, volume_usd := none,
    market_cap_usd := none, last_updated := none }

/-- The `while attempt < MAX_RETRIES` loop of `fetch_historical_day`.
`fuel` is `MAX_RETRIES - attempt` (remaining iterations), `attempt` the
count already used; each iteration increments `attempt` first and consumes
the next scripted outcome (an exhausted script behaves as a request
exception).  The second component is the trace of `time.sleep` durations:
`RETRY_BACKOFF_BASE * attempt` after a 429 or an error, and
`DELAY_BETWEEN_REQUESTS` after a success, before returning. -/
def fetchHistLoop (backoffBase delay : Nat) (d : Date) :
    Nat → Nat → List AttemptOutcome → HistPayload × List Nat
  | 0, _, _ => (failedPayload d, [])
  | fuel + 1, attemptPrev, responses =>
    let attempt := attemptPrev + 1
    let r := responses.headD .requestException
    let rest := responses.tail
    match r with
    | .success data =>
      ({ date := d, price_usd := data.price_usd, volume_usd := data.volume_usd,
         market_cap_usd := data.market_cap_usd, last_updated := data.last_updated },
       [delay])
    | .rateLimited =>
      let (p, s) := fetchHistLoop backoffBase delay d fuel attempt rest
      (p, backoffBase * attempt :: s)
    | .requestException =>
      let (p, s) := fetchHistLoop backoffBase delay d fuel attempt rest
      (p, backoffBase * attempt :: s)
    | .otherError =>
      let (p, s) := fetchHistLoop backoffBase delay d fuel attempt rest
      (p, backoffBase * attempt :: s)

/-- `fetch_historical_day` (lambda_backfill.py), driven by the scripted
list of per-attempt outcomes; returns the payload and the sleep trace. -/
def fetch_historical_day (maxRetries backoffBase delay : Nat) (d : Date)
    (responses : List AttemptOutcome) : HistPayload × List Nat :=
  fetchHistLoop backoffBase delay d maxRetries 0 responses

/-- The parsed JSON of a Secrets Manager `SecretString`, or the ways
reading it can fail. -/
inductive SecretsServiceOutcome where
  | netFail
  | noSecretString
  | malformedJson
  | jsonObject (fields : List (String × String))
deriving DecidableEq, Repr

/-- `dict.get` on a parsed JSON object. -/
def jsonGet (fields : List (String × String)) (k : String) : Option String :=
  (fields.find? (fun p => p.1 = k)).map Prod.snd

/-- `get_api_key_from_secrets` (lambda_backfill.py): no secret name means
no call at all; a missing `SecretString` defaults to `"{}"`; any exception
(network, JSON decode) is caught and `None` returned; a parsed object is
read with `.get("COINGECKO_API_KEY")`. -/
def get_api_key_from_secrets (secretName : Option String)
    (svc : SecretsServiceOutcome) : Option String :=
  match secretName with
  | none => none
  | some _ =>
    match svc with
    | .netFail => none
    | .noSecretString => jsonGet [] "COINGECKO_API_KEY"
    | .malformedJson => none
    | .jsonObject fields => jsonGet fields "COINGECKO_API_KEY"

/-- Two-digit zero padding, as in `datetime.isoformat`'s rendering. -/
def pad2 (n : Nat) : String :=
  if n < 10 then "0" ++ toString n else toString n

/-- `run_date.isoformat()` for the midnight-UTC datetime the backfill loop
builds from a calendar day. -/
def Date.isoformatUTC (d : Date) : String :=
  toString d.year ++ "-" ++ pad2 d.month ++ "-" ++ pad2 d.day ++ "T00:00:00+00:00"

/-- Python's `x or y` on an optional string: `None` and `""` are falsy. -/
def pyOrStr (x : Option String) (y : String) : String :=
  match x with
  | none => y
  | some s => if s = "" then y else s

/-- One row of the DataFrame `build_dataframe_from_payload` builds
(columns in the order the dict literal lists them). -/
structure BackfillRow where
  id : String
  symbol : String
  name : String
  price_usd : Option Int
  volume_usd : Option Int
  market_cap_usd : Option Int
  last_updated : String
  date : Date
  year : Nat
  month : Nat
  day : Nat
  processing_timestamp : Nat
deriving DecidableEq, Repr

/-- The column names of the backfill DataFrame. -/
def backfillRowColumns : List String :=
  ["id", "symbol", "name", "price_usd", "volume_usd", "market_cap_usd",
   "last_updated", "date", "year", "month", "day", "processing_timestamp"]

/-- `build_dataframe_from_payload` (lambda_backfill.py): the one-row
DataFrame; `nowTs` is `datetime.now(timezone.utc)`. -/
def build_dataframe_from_payload (payload : HistPayload) (run_date : Date)
    (nowTs : Nat) : BackfillRow :=
  { id := "bitcoin"
    symbol := "btc"
    name := "Bitcoin"
    price_usd := payload.price_usd
    volume_usd := payload.volume_usd
    market_cap_usd := payload.market_cap_usd
    last_updated := pyOrStr payload.last_updated run_date.isoformatUTC
    date := run_date
    year := run_date.year
    month := run_date.month
    day := run_date.day
    processing_timestamp := nowTs }

/-- The scripted external behaviour for one day of the backfill loop:
the day, the per-attempt fetch outcomes, and whether
`write_parquet_to_s3` raises. -/
structure DaySpec where
  date : Date
  responses : List AttemptOutcome
  writeOk : Bool
deriving Repr

/-- What a backfill run reports and writes: the final
`succeeded`/`failed` counters and the DataFrames passed to
`wr.s3.to_parquet`, in execution order. -/
structure BackfillReport where
  succeeded : Nat
  failed : Nat
  written : List BackfillRow
deriving DecidableEq, Repr

/-- The day loop of `main` (lambda_backfill.py): for each day fetch the
payload; a `None` price skips the write and counts the day failed; a
present price builds the DataFrame and passes it to the writer — a write
exception is caught and counts the day failed; either way the loop
advances to the next day. -/
def backfillLoop (maxRetries backoffBase delay nowTs : Nat) :
    List DaySpec → BackfillReport
  | [] => { succeeded := 0, failed := 0, written := [] }
  | day :: rest =>
    let r := backfillLoop maxRetries backoffBase delay nowTs rest
    let payload :=
      (fetch_historical_day maxRetries backoffBase delay day.date day.responses).1
    match payload.price_usd with
    | none =>
      { succeeded := r.succeeded, failed := r.failed + 1, written := r.written }
    | some _ =>
      let df := build_dataframe_from_payload payload day.date nowTs
      if day.writeOk then
        { succeeded := r.succeeded + 1, failed := r.failed, written := df :: r.written }
      else
        { succeeded := r.succeeded, failed := r.failed + 1, written := df :: r.written }

/-! ## manual_backfill.py -/

/-- The module-level API-key resolution of manual_backfill.py: with no
`COINGECKO_API_KEY_SECRET_NAME` the `if` body is skipped and `api_key`
stays `None`; with one, `get_secret_value`, the `["SecretString"]` index,
`json.loads` and the `["COINGECKO_API_KEY"]` index run with no
`try`/`except` around them, so each failure propagates (`Except.error`)
out of the module top level. -/
def manualApiKeyResolution (secretName : Option String)
    (svc : SecretsServiceOutcome) : Except String (Option String) :=
  match secretName with
  | none => .ok none
  | some _ =>
    match svc with
    | .netFail => .error "get_secret_value raised"
    | .noSecretString => .error "KeyError: SecretString"
    | .malformedJson => .error "JSONDecodeError"
    | .jsonObject fields =>
      match jsonGet fields "COINGECKO_API_KEY" with
      | some k => .ok (some k)
      | none => .error "KeyError: COINGECKO_API_KEY"

/-- One row of the DataFrame `fetch_bitcoin_data` builds (the dict
literal's keys, in order).  All three market numbers pass through
`float(...)`, so a successful row always carries them. -/
structure ManualRow where
  id : String
  symbol : String
  name : String
  price_usd : Int
  volume_usd : Int
  market_cap_usd : Int
  last_updated : String
  date : String
  year : Nat
  month : Nat
  day : Nat
deriving DecidableEq, Repr

/-- The column names of the interactive tool's DataFrame. -/
def manualRowColumns : List String :=
  ["id", "symbol", "name", "price_usd", "volume_usd", "market_cap_usd",
   "last_updated", "date", "year", "month", "day"]

/-- `fetch_bitcoin_data` (manual_backfill.py): `raise_for_status`
propagates HTTP errors; an empty array raises
`ValueError(f"No data returned for {target_date}")`; a missing
`current_price`/`total_volume`/`market_cap` key raises when the dict
literal indexes it; `year`/`month`/`day` are `int(...)` of the slices
`[:4]`, `[5:7]`, `[8:10]` of `target_date` (a non-numeric slice raises
`ValueError`). -/
def fetch_bitcoin_data (outcome : MarketsFetchOutcome)
    (target_date : String) : Except String ManualRow :=
  match outcome with
  | .httpError => .error "HTTPError"
  | .ok [] => .error ("No data returned for " ++ target_date)
  | .ok (row :: _) =>
    match row.current_price, row.total_volume, row.market_cap with
    | some p, some v, some m =>
      match (target_date.take 4).toNat?, ((target_date.drop 5).take 2).toNat?,
          ((target_date.drop 8).take 2).toNat? with
      | some y, some mo, some dy =>
        .ok { id := row.id
              symbol := row.symbol
              name := row.name
              price_usd := p
              volume_usd := v
              market_cap_usd := m
              last_updated := row.last_updated
              date := target_date
              year := y
              month := mo
              day := dy }
      | _, _, _ => .error "ValueError: invalid literal for int"
    | _, _, _ => .error "KeyError"

/-- The names bound in the module global namespace of manual_backfill.py
after its top level runs: the imports (`os`, `json`, `requests`, `pd`,
`datetime`, `wr`, `boto3`), the configuration constants, the api-key
block's bindings (`secrets_client` and `secret_value` exist only when a
secret name is configured; listing them here only enlarges the set),
`headers`, and the two functions.  Python's builtins bind no `name`
either, so resolution of `name` has no fallback. -/
def manualModuleNames : List String :=
  ["os", "json", "requests", "pd", "datetime", "wr", "boto3",
   "BITCOIN_ID", "S3_BUCKET", "S3_PREFIX", "API_KEY_SECRET_NAME",
   "api_key", "secrets_client", "secret_value", "headers",
   "fetch_bitcoin_data", "save_to_s3"]

/-- Evaluating the entry guard expression `name == "main"` at module
bottom: the first step loads the global `name`; when it is unbound the
evaluation is a `NameError` (`none`) before any comparison happens.
`cmp` stands for the comparison's result in the counterfactual where
`name` resolved; this name-level model never reaches it for this module. -/
def evalManualEntryGuard (bound : List String) (cmp : Bool) : Option Bool :=
  if bound.contains "name" then some cmp else none

/-- Running manual_backfill.py as a script, from the entry guard on:
`.error` is an unhandled exception killing the script; `.ok b` means the
guard evaluated and `b` says whether the main block (prompt, fetch,
append-write) ran. -/
def manualScriptOutcome (cmp : Bool) : Except String Bool :=
  match evalManualEntryGuard manualModuleNames cmp with
  | none => .error "NameError: name is not defined"
  | some b => .ok b

/-! ## Concrete runs used by the counterexamples -/

/-- A fully populated markets-endpoint entry. -/
def entryFull : MarketsEntry :=
  { id := "bitcoin", symbol := "btc", name := "Bitcoin",
    current_price := some 65000, total_volume := some 30000000000,
    market_cap := some 1280000000000, last_updated := "2024-03-07T10:00:00.000Z" }

/-- The same entry with the `current_price` key missing from the JSON. -/
def entryNoPrice : MarketsEntry :=
  { entryFull with current_price := none }

/-- A handler environment: no secret configured, upstream returns the full
entry, wall clock 2024-03-07, S3 write succeeds with one path. -/
def envFull : LambdaEnv :=
  { s3Bucket := "my-data-lake", s3Prefix := "raw/coingecko",
    secret := .noSecretConfigured, fetch := .ok [entryFull],
    now := ⟨2024, 3, 7⟩, nowTimestamp := 1709804000,
    writeResult := .ok
      ["s3://my-data-lake/raw/coingecko/year=2024/month=3/day=7/part0.parquet"] }

/-- Same environment but the upstream entry lacks its price field. -/
def envNoPrice : LambdaEnv := { envFull with fetch := .ok [entryNoPrice] }

/-- The live-mode event: no `date`, no `historical_data`. -/
def eventPlain : LambdaEvent := { date := none, historical_data := none }

/-- An event carrying a `historical_data` payload whose `price_usd` member
is missing (volume and market cap present). -/
def eventHistNoPrice : LambdaEvent :=
  { date := none, historical_data := some (none, some 30000000000, some 1280000000000) }

/-- The row the handler builds from `envFull` in live mode. -/
def rowFull : LambdaRow :=
  { entry := entryFull, processing_timestamp := 1709804000,
    year := 2024, month := 3, day := 7 }

/-- The row the handler builds from `envNoPrice` in live mode. -/
def rowNoPrice : LambdaRow :=
  { entry := entryNoPrice, processing_timestamp := 1709804000,
    year := 2024, month := 3, day := 7 }

/-- The seven MarketRow field names the spec's data model requires of
every row handed to the writer. -/
def requiredMarketFields : List String :=
  ["id", "symbol", "name", "price_usd", "volume_usd", "market_cap_usd",
   "last_updated"]

/-! ## C1 -/

/-- C1 counterexample: invoked with a `historical_data` payload missing
`price_usd` while the upstream returns data, the handler does not return
400 with zero writes — it live-fetches and writes regardless. -/
theorem historical_data_missing_price_not_rejected :
    ¬ ((lambda_handler envFull eventHistNoPrice).result.statusCode = 400 ∧
       (lambda_handler envFull eventHistNoPrice).writes = []) := by
  decide

/-- C1 amended: `lambda_handler` never reads `historical_data` — an event
carrying such a payload (with or without `price_usd`) is processed exactly
as the same event without one — and no execution path of the handler
returns a 400 outcome. -/
theorem lambda_handler_ignores_historical_data :
    (∀ (env : LambdaEnv) (ev : LambdaEvent) (hd : Option Int × Option Int × Option Int),
      lambda_handler env { ev with historical_data := some hd } =
        lambda_handler env { ev with historical_data := none }) ∧
    (∀ (env : LambdaEnv) (ev : LambdaEvent),
      (lambda_handler env ev).result.statusCode ≠ 400) := by
  constructor
  · intro env ev hd
    rfl
  · intro env ev
    obtain ⟨b, pre, sec, fetch, now, ts, w⟩ := env
    cases fetch with
    | httpError => simp [lambda_handler, fetch_single_coin_market_data]
    | ok data =>
      cases data with
      | nil => simp [lambda_handler, fetch_single_coin_market_data]
      | cons d ds =>
        cases w with
        | error e => simp [lambda_handler, fetch_single_coin_market_data]
        | ok paths =>
          cases paths with
          | nil => simp [lambda_handler, fetch_single_coin_market_data]
          | cons p0 ps => simp [lambda_handler, fetch_single_coin_market_data]

/-! ## C2 -/

/-- C2 counterexample: a concrete successful on-demand run hands the
writer a row carrying the upstream's raw column names — `price_usd` is
not among its columns. -/
theorem lambda_row_lacks_price_usd_column :
    (lambda_handler envFull eventPlain).writes = [[rowFull]] ∧
    "price_usd" ∉ lambdaRowColumns rowFull := by
  decide

/-- C2 amended: the backfill and interactive fetchers map the upstream
response into the fixed MarketRow schema (all seven required field names
present in their rows), but the on-demand handler's fetcher keeps the
upstream's raw column names: no row it hands to the writer ever has a
`price_usd`, `volume_usd` or `market_cap_usd` column. -/
theorem fetcher_row_schema_by_entry_point :
    (requiredMarketFields.all (backfillRowColumns.contains ·) = true) ∧
    (requiredMarketFields.all (manualRowColumns.contains ·) = true) ∧
    (∀ r : LambdaRow, "price_usd" ∉ lambdaRowColumns r ∧
      "volume_usd" ∉ lambdaRowColumns r ∧ "market_cap_usd" ∉ lambdaRowColumns r) := by
  refine ⟨by decide, by decide, ?_⟩
  intro r
  obtain ⟨⟨i, s, n, cp, tv, mc, lu⟩, ts, y, mo, dy⟩ := r
  cases cp <;> cases tv <;> cases mc <;>
    simp [lambdaRowColumns, marketsEntryColumns]

/-! ## C3 -/

/-- C3 counterexample: with the defaults MAX_RETRIES = 6 and
RETRY_BACKOFF_BASE = 5, six consecutive 429 responses — zero
non-rate-limit failures — exhaust the attempt budget and the run surfaces
the terminal all-absent failure payload, each 429 having slept
5 * attemptNumber and consumed an attempt. -/
theorem rate_limits_alone_exhaust_budget :
    fetch_historical_day 6 5 3 ⟨2024, 1, 15⟩ (List.replicate 6 .rateLimited) =
      (failedPayload ⟨2024, 1, 15⟩, [5, 10, 15, 20, 25, 30]) := by
  decide

/-- The retry loop on an all-429 script: every iteration sleeps
backoffBase * attemptNumber and retries, and the fuel runs out with the
failure payload. -/
theorem fetchHistLoop_replicate_rateLimited (backoffBase delay : Nat) (d : Date) :
    ∀ (fuel attempt : Nat),
      fetchHistLoop backoffBase delay d fuel attempt (List.replicate fuel .rateLimited) =
        (failedPayload d, (List.range fuel).map (fun i => backoffBase * (attempt + i + 1)))
  | 0, _ => by simp [fetchHistLoop]
  | fuel + 1, attempt => by
    have ih := fetchHistLoop_replicate_rateLimited backoffBase delay d fuel (attempt + 1)
    have hf : ((fun i => backoffBase * (attempt + i + 1)) ∘ Nat.succ) =
        (fun i => backoffBase * (attempt + 1 + i + 1)) := by
      funext i
      simp only [Function.comp_apply, Nat.succ_eq_add_one]
      ring
    simp only [List.replicate_succ, fetchHistLoop, List.headD_cons, List.tail_cons, ih,
      List.range_succ_eq_map, List.map_cons, List.map_map, hf, Nat.add_zero]

/-- C3 amended: a 429 response triggers a sleep of
backoff_base * attempt_number seconds and a retry, but the retry consumes
an attempt from the same bounded budget: maxRetries consecutive 429s
exhaust it with sleeps backoff_base * 1, ..., backoff_base * maxRetries
and surface the terminal all-absent failure, with no non-rate-limit
failure having occurred. -/
theorem rate_limited_retry_consumes_attempts :
    ∀ (maxRetries backoffBase delay : Nat) (d : Date),
      fetch_historical_day maxRetries backoffBase delay d
          (List.replicate maxRetries .rateLimited) =
        (failedPayload d,
         (List.range maxRetries).map (fun i => backoffBase * (i + 1))) := by
  intro maxRetries backoffBase delay d
  have h := fetchHistLoop_replicate_rateLimited backoffBase delay d maxRetries 0
  simpa [fetch_historical_day] using h

/-! ## C9 -/

/-- C9: with RETRY_BACKOFF_BASE = 5 and MAX_RETRIES at its default 6, the
scripted run [429, 429, success] sleeps 5 then 10 seconds before the
successful attempt and then the fixed inter-request delay before
returning, the payload carrying the fetched values. -/
theorem retry_driver_sleeps_then_delay :
    ∀ (delay : Nat) (d : Date) (data : HistData),
      fetch_historical_day 6 5 delay d
          [.rateLimited, .rateLimited, .success data] =
        ({ date := d, price_usd := data.price_usd, volume_usd := data.volume_usd,
           market_cap_usd := data.market_cap_usd, last_updated := data.last_updated },
         [5, 10, delay]) := by
  intro delay d data
  rfl

/-! ## C4 -/

/-- C4 counterexample: a concrete live-mode handler run writes a row whose
year/month/day are the calendar components of the fetch wall clock
(`envFull.now`, i.e. `datetime.utcnow()`) and which carries no `date`
column at all. -/
theorem lambda_live_partition_keys_from_wall_clock :
    (lambda_handler envFull eventPlain).writes = [[rowFull]] ∧
    rowFull.year = envFull.now.year ∧ rowFull.month = envFull.now.month ∧
    rowFull.day = envFull.now.day ∧ "date" ∉ lambdaRowColumns rowFull := by
  decide

/-- C4 amended: backfill rows take `date` and `year`/`month`/`day` from
the logical run date, for every payload and every wall-clock timestamp,
and a successful interactive-tool row's `year`/`month`/`day` are parsed
from its `date` string; the on-demand handler's rows carry no `date`
field, their `year`/`month`/`day` coming from the event date when present
and from the wall clock otherwise. -/
theorem partition_keys_from_logical_date :
    (∀ (payload : HistPayload) (rd : Date) (ts : Nat),
      (build_dataframe_from_payload payload rd ts).date = rd ∧
      (build_dataframe_from_payload payload rd ts).year = rd.year ∧
      (build_dataframe_from_payload payload rd ts).month = rd.month ∧
      (build_dataframe_from_payload payload rd ts).day = rd.day) ∧
    (∀ (o : MarketsFetchOutcome) (td : String) (row : ManualRow),
      fetch_bitcoin_data o td = .ok row →
      row.date = td ∧ some row.year = (td.take 4).toNat? ∧
      some row.month = ((td.drop 5).take 2).toNat? ∧
      some row.day = ((td.drop 8).take 2).toNat?) ∧
    (∀ (env : LambdaEnv) (ev : LambdaEvent),
      ((lambda_handler env ev).writes.all (fun df => df.all (fun r =>
        r.year == (ev.date.getD env.now).year &&
        r.month == (ev.date.getD env.now).month &&
        r.day == (ev.date.getD env.now).day))) = true) := by
  refine ⟨?_, ?_, ?_⟩
  · intro payload rd ts
    exact ⟨rfl, rfl, rfl, rfl⟩
  · intro o td row h
    cases o with
    | httpError => cases h
    | ok data =>
      cases data with
      | nil => cases h
      | cons r rest =>
        simp only [fetch_bitcoin_data] at h
        split at h
        · split at h
          · cases h
            refine ⟨rfl, ?_, ?_, ?_⟩ <;> simp_all
          · cases h
        · cases h
  · intro env ev
    obtain ⟨b, pre, sec, fetch, now, ts, w⟩ := env
    obtain ⟨evd, evh⟩ := ev
    cases fetch with
    | httpError => simp [lambda_handler, fetch_single_coin_market_data]
    | ok data =>
      cases data with
      | nil => simp [lambda_handler, fetch_single_coin_market_data]
      | cons d ds =>
        cases w with
        | error e =>
          cases evd <;>
            simp [lambda_handler, fetch_single_coin_market_data, List.all_cons]
        | ok paths =>
          cases paths with
          | nil =>
            cases evd <;>
              simp [lambda_handler, fetch_single_coin_market_data, List.all_cons]
          | cons p0 ps =>
            cases evd <;>
              simp [lambda_handler, fetch_single_coin_market_data, List.all_cons]

/-! ## C5 -/

/-- C5 counterexample: with the upstream returning one entry whose price
key is missing, the on-demand handler still passes the row to the writer
— no price-presence check exists on that path, and the row has neither a
`price_usd` nor even a `current_price` column. -/
theorem lambda_writes_row_with_absent_price :
    (lambda_handler envNoPrice eventPlain).writes = [[rowNoPrice]] ∧
    rowNoPrice.entry.current_price = none ∧
    "price_usd" ∉ lambdaRowColumns rowNoPrice ∧
    "current_price" ∉ lambdaRowColumns rowNoPrice := by
  decide

/-- C5 amended: the backfill loop never passes a row with `price_usd`
absent to the writer, and the interactive tool's fetch raises before
producing a row when the price key is missing; the on-demand handler,
by contrast, performs no price check and passes whatever nonempty
response it got to the writer (see the counterexample). -/
theorem absent_price_never_written_backfill_manual :
    (∀ (maxRetries backoffBase delay nowTs : Nat) (days : List DaySpec),
      ((backfillLoop maxRetries backoffBase delay nowTs days).written.all
        (fun r => r.price_usd.isSome)) = true) ∧
    (∀ (e : MarketsEntry) (rest : List MarketsEntry) (td : String),
      e.current_price = none →
      fetch_bitcoin_data (.ok (e :: rest)) td = .error "KeyError") := by
  constructor
  · intro maxRetries backoffBase delay nowTs days
    induction days with
    | nil => rfl
    | cons day rest ih =>
      simp only [backfillLoop]
      cases hp : (fetch_historical_day maxRetries backoffBase delay
          day.date day.responses).1.price_usd with
      | none => simpa [hp] using ih
      | some p =>
        cases hw : day.writeOk <;>
          simp [hp, hw, build_dataframe_from_payload, ih]
  · intro e rest td h
    simp [fetch_bitcoin_data, h]

/-! ## C6 -/

/-- The retry loop, on any script with no successful outcome, runs out of
fuel and yields the all-absent failure payload (an exhausted script keeps
failing, matching the loop exit). -/
theorem fetchHistLoop_all_fail (backoffBase delay : Nat) (d : Date) :
    ∀ (fuel attempt : Nat) (rs : List AttemptOutcome),
      (∀ r ∈ rs, r.isSuccess = false) →
      (fetchHistLoop backoffBase delay d fuel attempt rs).1 = failedPayload d
  | 0, _, _, _ => rfl
  | fuel + 1, attempt, rs, h => by
    cases rs with
    | nil =>
      have ih := fetchHistLoop_all_fail backoffBase delay d fuel (attempt + 1) []
        (by simp)
      simpa [fetchHistLoop] using ih
    | cons r rest =>
      have hr := h r (List.mem_cons_self r rest)
      have ih := fetchHistLoop_all_fail backoffBase delay d fuel (attempt + 1) rest
        (fun x hx => h x (List.mem_cons_of_mem r hx))
      cases r with
      | success data => simp [AttemptOutcome.isSuccess] at hr
      | rateLimited => simpa [fetchHistLoop] using ih
      | requestException => simpa [fetchHistLoop] using ih
      | otherError => simpa [fetchHistLoop] using ih

/-- C6: when every attempt for a day fails (in particular MAX_RETRIES
consecutive failures), `fetch_historical_day` returns normally — no
exception crosses its boundary in the embedding, every branch being
caught in the source — with `price_usd`, `volume_usd`, `market_cap_usd`
and `last_updated` all absent; the backfill loop counts such a day failed,
writes nothing for it, and still processes the remaining days. -/
theorem exhausted_day_fails_and_loop_continues :
    (∀ (maxRetries backoffBase delay : Nat) (d : Date) (rs : List AttemptOutcome),
      (∀ r ∈ rs, r.isSuccess = false) →
      (fetch_historical_day maxRetries backoffBase delay d rs).1 = failedPayload d) ∧
    (∀ (maxRetries backoffBase delay nowTs : Nat) (day : DaySpec) (rest : List DaySpec),
      (∀ r ∈ day.responses, r.isSuccess = false) →
      backfillLoop maxRetries backoffBase delay nowTs (day :: rest) =
        { succeeded := (backfillLoop maxRetries backoffBase delay nowTs rest).succeeded,
          failed := (backfillLoop maxRetries backoffBase delay nowTs rest).failed + 1,
          written := (backfillLoop maxRetries backoffBase delay nowTs rest).written }) := by
  constructor
  · intro maxRetries backoffBase delay d rs h
    exact fetchHistLoop_all_fail backoffBase delay d maxRetries 0 rs h
  · intro maxRetries backoffBase delay nowTs day rest h
    have hp : (fetch_historical_day maxRetries backoffBase delay
        day.date day.responses).1 = failedPayload day.date :=
      fetchHistLoop_all_fail backoffBase delay day.date maxRetries 0 day.responses h
    simp [backfillLoop, hp, failedPayload]

/-! ## C7 -/

/-- C7 counterexample: the interactive tool does raise on an empty
upstream array — `fetch_bitcoin_data` turns it into a ValueError instead
of a no-data outcome. -/
theorem manual_empty_array_raises :
    fetch_bitcoin_data (.ok []) "2024-01-15" =
      .error "No data returned for 2024-01-15" := by
  rfl

/-- C7 amended: an empty upstream array yields the 204 no-data outcome and
zero writes in the on-demand handler (no exception — the handler returns
normally), but the interactive tool's fetch raises ValueError on it. -/
theorem empty_upstream_response_outcomes :
    (∀ (env : LambdaEnv) (ev : LambdaEvent), env.fetch = .ok [] →
      lambda_handler env ev = ⟨⟨204, "No data returned from API."⟩, []⟩) ∧
    (∀ td : String, fetch_bitcoin_data (.ok []) td =
      .error ("No data returned for " ++ td)) := by
  constructor
  · intro env ev h
    simp [lambda_handler, fetch_single_coin_market_data, h]
  · intro td
    rfl

/-! ## C8 -/

/-- C8 counterexample: the interactive tool's module-level resolution has
no exception handler — a failing `get_secret_value` call propagates out of
the module top level instead of degrading to a keyless run. -/
theorem manual_secret_failure_propagates :
    manualApiKeyResolution (some "coingecko/api-key") .netFail =
      .error "get_secret_value raised" := by
  rfl

/-- C8 amended: the on-demand handler and the backfill driver degrade
every secret failure to keyless operation — `get_api_key_from_secrets`
returns `None` on network failure, missing `SecretString`, malformed JSON
or a missing key field, and `lambda_handler` behaves identically under a
failed lookup and no configured secret — but the interactive tool's
module-level resolution propagates such failures (see the
counterexample). -/
theorem secret_failures_degrade_to_keyless :
    (∀ n : Option String,
      get_api_key_from_secrets n .netFail = none ∧
      get_api_key_from_secrets n .noSecretString = none ∧
      get_api_key_from_secrets n .malformedJson = none) ∧
    (∀ (n : String) (fields : List (String × String)),
      jsonGet fields "COINGECKO_API_KEY" = none →
      get_api_key_from_secrets (some n) (.jsonObject fields) = none) ∧
    (∀ (env : LambdaEnv) (ev : LambdaEvent),
      lambda_handler { env with secret := .lookupFails } ev =
        lambda_handler { env with secret := .noSecretConfigured } ev) := by
  refine ⟨?_, ?_, ?_⟩
  · intro n
    cases n <;> exact ⟨rfl, rfl, rfl⟩
  · intro n fields h
    simp [get_api_key_from_secrets, h]
  · intro env ev
    rfl

/-! ## C10 -/

/-- C10: the entry guard of manual_backfill.py compares the global `name`
(not `__name__`), which nothing in the module binds: whatever the
comparison would have produced, running the file as a script dies with an
unhandled NameError at the guard and the main block (prompt, fetch,
append-write) never executes. -/
theorem manual_entry_guard_raises_name_error :
    ("name" ∉ manualModuleNames) ∧
    (∀ cmp : Bool,
      manualScriptOutcome cmp = .error "NameError: name is not defined") := by
  constructor
  · decide
  · intro cmp
    rfl

end CryptoPipeline
